import Mathlib

/-
Shallow embedding of `src/agent.py` (Pookie-n-Rookie/Crawlr), an interactive
research-assistant script.  The external services (Tavily search, Groq-hosted
model, CrewAI kickoff) are opaque to the script; their outcomes are passed in
as `Except`-valued parameters.  A Python exception is modelled by its
`str(e)` message (plus a distinguished `KeyboardInterrupt`, which in Python is
not a subclass of `Exception`).  Python dictionary access `d['k']` on a
possibly-missing key is modelled by `dictGet`, which raises the `KeyError`
message `str(KeyError('k')) = "'k'"` when the key is absent.
-/

namespace Crawlr

/-- Truthiness of an optional environment-variable string, as Python's
`if not X` sees it: `None` and the empty string are falsy. -/
def pyStrTruthy : Option String → Bool
  | none => false
  | some s => !s.isEmpty

/-- Characters removed by Python's `str.strip()` (the common ASCII whitespace
set: space, tab, newline, carriage return, vertical tab, form feed). -/
def pyIsSpace (c : Char) : Bool :=
  c = ' ' || c = '\t' || c = '\n' || c = '\r' || c = '\x0b' || c = '\x0c'

/-- Python's `str.strip()`: remove leading and trailing whitespace. -/
def pyStrip (s : String) : String :=
  ⟨((s.data.dropWhile pyIsSpace).reverse.dropWhile pyIsSpace).reverse⟩

/-- Python's `str.lower()` (ASCII case folding suffices for this program). -/
def pyLower (s : String) : String :=
  ⟨s.data.map Char.toLower⟩

/-- Message carried by a Python `KeyError k`: `str(KeyError('k'))` is `"'k'"`. -/
def keyErrorMsg (k : String) : String := "'" ++ k ++ "'"

/-- Python dict access `d['k']` where the field may be absent: returns the
value or raises a `KeyError`-style message. -/
def dictGet {α : Type} (d : Option α) (k : String) : Except String α :=
  match d with
  | some v => .ok v
  | none => .error (keyErrorMsg k)

/-- One item of the Tavily `results` list; the `title`/`url` keys may be
absent from the dict (access then raises `KeyError`). -/
structure ResultItem where
  title : Option String
  url : Option String
deriving DecidableEq, Repr

/-- The dict returned by `tav.search`: a possibly-absent `results` list and a
possibly-absent synthesized `answer` string. -/
structure SearchResp where
  resultsField : Option (List ResultItem)
  answerField : Option String
deriving DecidableEq, Repr

/-- The list comprehension in `SearchTool._run`
(`agent.py` lines 31-32): for `i, item` in `enumerate(results[:3])`, format
`f"{i+1}. {item['title']}\n   {item['url']}"`; a missing key raises at the
first offending item. -/
def formatLinks (i : Nat) : List ResultItem → Except String (List String)
  | [] => .ok []
  | item :: rest =>
    match dictGet item.title "title" with
    | .error e => .error e
    | .ok t =>
      match dictGet item.url "url" with
      | .error e => .error e
      | .ok u =>
        match formatLinks (i + 1) rest with
        | .error e => .error e
        | .ok es => .ok ((toString (i + 1) ++ ". " ++ t ++ "\n   " ++ u) :: es)

/-- Body of the `try:` block of `SearchTool._run` (`agent.py` lines 20-34):
check the Tavily key (Python truthiness), perform the search (outcome supplied
by `search`, which may raise any message), read `result['results']`, format the
first three links, and prepend `result.get('answer', 'I found these
resources:')`. -/
def runBody (tavilyKey : Option String) (search : String → Except String SearchResp)
    (query : String) : Except String String :=
  if !(pyStrTruthy tavilyKey) then
    .error "Tavily API key not found"
  else
    match search query with
    | .error e => .error e
    | .ok result =>
      match dictGet result.resultsField "results" with
      | .error e => .error e
      | .ok results =>
        match formatLinks 0 (results.take 3) with
        | .error e => .error e
        | .ok links =>
          .ok (result.answerField.getD "I found these resources:" ++
            "\n\nTop Links:\n" ++ String.intercalate "\n\n" links)

/-- `SearchTool._run` (`agent.py` lines 19-36): the `try/except Exception`
wrapper around `runBody`; every exception is converted into
`f"⚠️ Search failed. Error: {str(e)}"`, so the function is total. -/
def SearchTool.run (tavilyKey : Option String) (search : String → Except String SearchResp)
    (query : String) : String :=
  match runBody tavilyKey search query with
  | .ok s => s
  | .error e => "⚠️ Search failed. Error: " ++ e

/-- Configuration of the `ChatOpenAI` handle built by `set_llm`
(`agent.py` lines 46-52). -/
structure LLMConfig where
  model : String
  apiKey : String
  baseUrl : String
  temperature : ℚ
  maxTokens : Nat
deriving DecidableEq, Repr

/-- `set_llm` (`agent.py` lines 39-52): raises
`ValueError("Groq API key not found in environment variables")` when the key
is falsy, otherwise strips the key and builds the fixed configuration. -/
def set_llm (groqKey : Option String) : Except String LLMConfig :=
  match groqKey with
  | none => .error "Groq API key not found in environment variables"
  | some k =>
    if k.isEmpty then
      .error "Groq API key not found in environment variables"
    else
      .ok { model := "groq/llama3-70b-8192"
            apiKey := pyStrip k
            baseUrl := "https://api.groq.com/openai/v1"
            temperature := 1 / 2
            maxTokens := 1024 }

/-- Static agent configuration (`agent.py` lines 57-68). -/
structure AgentConfig where
  role : String
  goal : String
  backstory : String
  numTools : Nat
  llm : LLMConfig
  verbose : Bool
  maxIter : Nat
deriving DecidableEq, Repr

/-- Static task configuration (`agent.py` lines 70-87). -/
structure TaskConfig where
  taskDescription : String
  expectedOutput : String
  outputFile : String
deriving DecidableEq, Repr

/-- The crew built by `form_crew` (`agent.py` lines 89-94). -/
structure CrewConfig where
  agent : AgentConfig
  task : TaskConfig
  verbose : Bool
  process : String
deriving DecidableEq, Repr

/-- `form_crew` (`agent.py` lines 55-94): calls `set_llm` (whose
`ValueError` propagates) and assembles the fixed agent, task and crew
configuration around the query. -/
def form_crew (groqKey : Option String) (query : String) : Except String CrewConfig :=
  match set_llm groqKey with
  | .error e => .error e
  | .ok llm =>
  let researcher : AgentConfig :=
    { role := "AI Research Specialist"
      goal := "Deliver precise and informative answers with credible sources"
      backstory := "You're an elite researcher who uses advanced tools to find and synthesize information from verified web sources."
      numTools := 1
      llm := llm
      verbose := true
      maxIter := 3 }
  let task : TaskConfig :=
    { taskDescription :=
        "Research the topic: '" ++ query ++ "'\n" ++
        "Instructions:\n" ++
        "- Only use verified, recent information\n" ++
        "- Present a clear and concise summary\n" ++
        "- Highlight key aspects\n" ++
        "- Provide 3–5 relevant sources with titles and URLs"
      expectedOutput :=
        "1. Overview of the topic\n" ++
        "2. Key findings\n" ++
        "3. Summary with evidence\n" ++
        "4. 3–5 Reference links with titles"
      outputFile := "research_output.md" }
  .ok { agent := researcher, task := task, verbose := true, process := "sequential" }

/-- A Python exception as the interactive loop sees it: either a
`KeyboardInterrupt` (not a subclass of `Exception`) or an ordinary exception
carrying its `str(e)` message. -/
inductive PyExn where
  | keyboardInterrupt
  | exn (msg : String)
deriving DecidableEq, Repr

/-- Loop control after one iteration of `main`'s `while True`. -/
inductive Control where
  | brk
  | next
deriving DecidableEq, Repr

/-- Effect of one iteration of the interactive loop: the lines printed, whether
the orchestrator (`form_crew`/`kickoff`) was invoked, and the loop control. -/
structure IterResult where
  printed : List String
  invokedOrchestrator : Bool
  control : Control
deriving DecidableEq, Repr

/-- The two `except` clauses of `main` (`agent.py` lines 112-116):
`KeyboardInterrupt` prints the farewell and breaks; any other exception prints
the error marker and lets the loop continue. -/
def handleExn : PyExn → List String × Control
  | .keyboardInterrupt => (["\n👋 Exiting..."], .brk)
  | .exn msg => (["\n❌ Error: " ++ msg], .next)

/-- Exit keywords recognised by `main` (`agent.py` line 102). -/
def exitKeywords : List String := ["exit", "quit"]

/-- One iteration of `main`'s `while True` loop (`agent.py` lines 99-116).
`inputLine` is the outcome of `input(...)` (which may raise
`KeyboardInterrupt` at the prompt); `kick` is the outcome of
`crew.kickoff()` (which may raise any exception, including a
`KeyboardInterrupt` arriving mid-call).  Both `except` clauses enclose
everything from the prompt through the kickoff. -/
def loopIter (groqKey : Option String) (inputLine : Except PyExn String)
    (kick : Except PyExn String) : IterResult :=
  match inputLine with
  | .error ex =>
    let (p, c) := handleExn ex
    { printed := p, invokedOrchestrator := false, control := c }
  | .ok query =>
    if pyLower (pyStrip query) ∈ exitKeywords then
      { printed := [], invokedOrchestrator := false, control := .brk }
    else
      let pre := ["\n🧠 Researching... please wait...\n"]
      match form_crew groqKey query with
      | .error msg =>
        let (p, c) := handleExn (.exn msg)
        { printed := pre ++ p, invokedOrchestrator := true, control := c }
      | .ok _ =>
        match kick with
        | .error ex =>
          let (p, c) := handleExn ex
          { printed := pre ++ p, invokedOrchestrator := true, control := c }
        | .ok result =>
          { printed := pre ++ ["\n✅ Research Result:\n", result]
            invokedOrchestrator := true
            control := .next }

/-- Outcome of the `__main__` guard (`agent.py` lines 118-125). -/
structure StartupResult where
  printed : List String
  entersLoop : Bool
deriving DecidableEq, Repr

/-- The `__main__` guard (`agent.py` lines 118-125): `if not GROQ` print the
Groq error, `elif not TAVILY` print the Tavily error, `else` enter `main`. -/
def startup (groqKey tavilyKey : Option String) : StartupResult :=
  if !(pyStrTruthy groqKey) then
    { printed := ["❌ Error: GROQ_API_KEY not found in .env file"], entersLoop := false }
  else if !(pyStrTruthy tavilyKey) then
    { printed := ["❌ Error: TAVILY_API_KEY not found in .env file"], entersLoop := false }
  else
    { printed := [], entersLoop := true }

/-! ## Helper lemmas -/

/-- Unfolding of `String.intercalate` on a three-element list. -/
theorem intercalate_three (s x y z : String) :
    String.intercalate s [x, y, z] = x ++ s ++ y ++ s ++ z := by
  simp [String.intercalate, String.intercalate.go, String.append_assoc]

/-! ## Claims -/

/-- Claim C1: for every query string and every exception raised during the
search call (missing credential, network failure, missing `results` key,
missing item fields — every `.error` outcome of the `try:` body), the string
returned by `SearchTool._run` begins with the warning marker and contains the
exception's message text.  `SearchTool.run` is a total `String`-valued
function, so no exception ever propagates to the caller. -/
theorem searchTool_run_absorbs_exceptions (tavilyKey : Option String)
    (search : String → Except String SearchResp) (query : String) (e : String)
    (h : runBody tavilyKey search query = .error e) :
    (∃ tail, SearchTool.run tavilyKey search query = "⚠️" ++ tail) ∧
    (∃ pre post, SearchTool.run tavilyKey search query = pre ++ (e ++ post)) := by
  have hrun : SearchTool.run tavilyKey search query = "⚠️ Search failed. Error: " ++ e := by
    unfold SearchTool.run
    rw [h]
  refine ⟨⟨" Search failed. Error: " ++ e, ?_⟩, ⟨"⚠️ Search failed. Error: ", "", ?_⟩⟩
  · rw [hrun, ← String.append_assoc]
    rfl
  · rw [hrun]
    simp

/-- Witness for C1: the missing-credential exception at a concrete input. -/
theorem searchTool_run_absorbs_exceptions_witness :
    (∃ tail, SearchTool.run none (fun _ => .ok ⟨some [], none⟩) "q" = "⚠️" ++ tail) ∧
    (∃ pre post, SearchTool.run none (fun _ => .ok ⟨some [], none⟩) "q" =
      pre ++ ("Tavily API key not found" ++ post)) :=
  searchTool_run_absorbs_exceptions none (fun _ => .ok ⟨some [], none⟩) "q"
    "Tavily API key not found" rfl

/-- Counterexample to claim C2 as stated: with the Tavily credential absent,
the `ValueError` thrown inside `SearchTool._run` is caught by `_run`'s own
`except` clause and converted into a returned warning string; it never reaches
the Interactive Runner's top-level handler. -/
theorem searchTool_configError_not_propagated :
    runBody none (fun _ => .ok ⟨some [], none⟩) "q" = .error "Tavily API key not found" ∧
    SearchTool.run none (fun _ => .ok ⟨some [], none⟩) "q" =
      "⚠️ Search failed. Error: Tavily API key not found" :=
  ⟨rfl, rfl⟩

/-- Claim C2 (amended): a `ConfigurationError` raised by `set_llm` inside
`form_crew` reaches the Interactive Runner's generic handler, is printed with
the error marker, and the loop continues; the `ConfigurationError` thrown by
`SearchTool._run`, by contrast, is caught inside `_run` itself and returned as
a warning string instead of propagating. -/
theorem configError_reaches_runner_only_from_set_llm (groqKey : Option String)
    (q : String) (kick : Except PyExn String) (search : String → Except String SearchResp)
    (hg : pyStrTruthy groqKey = false)
    (hq : pyLower (pyStrip q) ∉ exitKeywords) :
    (loopIter groqKey (.ok q) kick).printed =
      ["\n🧠 Researching... please wait...\n",
       "\n❌ Error: Groq API key not found in environment variables"] ∧
    (loopIter groqKey (.ok q) kick).control = .next ∧
    SearchTool.run none search q = "⚠️ Search failed. Error: Tavily API key not found" := by
  have hset : set_llm groqKey = .error "Groq API key not found in environment variables" := by
    cases groqKey with
    | none => rfl
    | some k =>
      simp only [pyStrTruthy] at hg
      cases hke : k.isEmpty with
      | true => simp [set_llm, hke]
      | false => simp [hke] at hg
  have hform : form_crew groqKey q = .error "Groq API key not found in environment variables" := by
    unfold form_crew
    rw [hset]
  simp only [loopIter]
  rw [if_neg hq, hform]
  exact ⟨rfl, rfl, rfl⟩

/-- Witness for C2's amended theorem at concrete inputs. -/
theorem configError_reaches_runner_only_from_set_llm_witness :
    (loopIter none (.ok "q") (.ok "r")).printed =
      ["\n🧠 Researching... please wait...\n",
       "\n❌ Error: Groq API key not found in environment variables"] ∧
    (loopIter none (.ok "q") (.ok "r")).control = .next ∧
    SearchTool.run none (fun _ => .ok ⟨some [], none⟩) "q" =
      "⚠️ Search failed. Error: Tavily API key not found" :=
  configError_reaches_runner_only_from_set_llm none "q" (.ok "r")
    (fun _ => .ok ⟨some [], none⟩) rfl (by decide)

/-- Counterexample to claim C3 as stated: on blank input (with both services
healthy) the loop does not terminate; it invokes the orchestrator and
continues to the next prompt. -/
theorem blank_input_reaches_orchestrator_example :
    (loopIter (some "g") (.ok "") (.ok "res")).invokedOrchestrator = true ∧
    (loopIter (some "g") (.ok "") (.ok "res")).control = .next :=
  ⟨rfl, rfl⟩

/-- Claim C3 (amended): a blank (empty or whitespace-only) input line is not
treated as an exit keyword; the Interactive Runner passes it to the
Orchestrator exactly like any other non-exit input. -/
theorem blank_input_invokes_orchestrator (key : Option String)
    (kick : Except PyExn String) (s : String) (h : pyStrip s = "") :
    (loopIter key (.ok s) kick).invokedOrchestrator = true := by
  have hq : pyLower (pyStrip s) ∉ exitKeywords := by
    rw [h]
    decide
  simp only [loopIter]
  rw [if_neg hq]
  cases hf : form_crew key s with
  | error msg => rfl
  | ok cw =>
    cases kick with
    | error ex => cases ex <;> rfl
    | ok r => rfl

/-- Witness for C3's amended theorem: the empty input line. -/
theorem blank_input_invokes_orchestrator_witness :
    (loopIter (some "g") (.ok "  ") (.ok "res")).invokedOrchestrator = true :=
  blank_input_invokes_orchestrator (some "g") (.ok "res") "  " rfl

/-- Claim C4: the `__main__` guard enters the interactive loop iff both
credentials are present (Python-truthy); when either is missing it prints an
error message and never enters the loop. -/
theorem startup_gates_loop (g t : Option String) :
    ((startup g t).entersLoop = true ↔ (pyStrTruthy g = true ∧ pyStrTruthy t = true)) ∧
    ((pyStrTruthy g = false ∨ pyStrTruthy t = false) →
      (startup g t).printed ≠ [] ∧ (startup g t).entersLoop = false) := by
  unfold startup
  cases hg : pyStrTruthy g <;> cases ht : pyStrTruthy t <;> simp

/-- Witness for C4 at a concrete credential-absence combination. -/
theorem startup_gates_loop_witness :
    (startup (some "g") none).printed ≠ [] ∧ (startup (some "g") none).entersLoop = false :=
  (startup_gates_loop (some "g") none).2 (Or.inr rfl)

/-- Counterexample to claim C5 as stated: `SearchTool._run` re-checks the
Tavily credential on every invocation — for the very same search outcome, the
call succeeds when the key is present at call time and returns a warning when
it is absent at call time. -/
theorem searchTool_rechecks_key_per_call :
    SearchTool.run (some "k") (fun _ => .ok ⟨some [], some "A"⟩) "q" = "A\n\nTop Links:\n" ∧
    SearchTool.run none (fun _ => .ok ⟨some [], some "A"⟩) "q" =
      "⚠️ Search failed. Error: Tavily API key not found" :=
  ⟨rfl, rfl⟩

/-- Claim C5 (amended): credential absence is checked at startup, and in
addition both components re-check lazily — `set_llm` validates the Groq key at
each construction, and `SearchTool._run` checks the Tavily key on every
invocation, degrading to a warning string when it is absent at call time. -/
theorem credential_checks_are_lazy_too (search : String → Except String SearchResp)
    (q : String) :
    SearchTool.run none search q = "⚠️ Search failed. Error: Tavily API key not found" ∧
    set_llm none = .error "Groq API key not found in environment variables" ∧
    (startup none none).entersLoop = false ∧ (startup none none).printed ≠ [] := by
  refine ⟨rfl, rfl, rfl, ?_⟩
  decide

/-- A string append whose left part is non-empty is non-empty. -/
theorem append_ne_empty_of_left (p s : String) (hp : 0 < p.length) : p ++ s ≠ "" := by
  intro h
  have hlen := congrArg String.length h
  rw [String.length_append] at hlen
  simp at hlen
  omega

/-- Claim C6: for every successful search whose result list holds at least
three items (their `title` and `url` keys present), the string returned by
`SearchTool._run` contains exactly three numbered entries, indexed 1, 2, 3,
each with a non-empty title line and a non-empty URL line, concatenated under
the fixed "Top Links:" heading. -/
theorem search_formats_three_entries (tavilyKey : Option String)
    (search : String → Except String SearchResp) (q : String)
    (af : Option String) (a b c : ResultItem) (rest : List ResultItem)
    (ta ua tb ub tc uc : String)
    (hk : pyStrTruthy tavilyKey = true)
    (hs : search q = .ok ⟨some (a :: b :: c :: rest), af⟩)
    (hta : a.title = some ta) (hua : a.url = some ua)
    (htb : b.title = some tb) (hub : b.url = some ub)
    (htc : c.title = some tc) (huc : c.url = some uc) :
    SearchTool.run tavilyKey search q =
      af.getD "I found these resources:" ++ "\n\nTop Links:\n" ++
        ("1. " ++ ta ++ "\n   " ++ ua) ++ "\n\n" ++
        ("2. " ++ tb ++ "\n   " ++ ub) ++ "\n\n" ++
        ("3. " ++ tc ++ "\n   " ++ uc) ∧
    "1. " ++ ta ≠ "" ∧ "2. " ++ tb ≠ "" ∧ "3. " ++ tc ≠ "" ∧
    "   " ++ ua ≠ "" ∧ "   " ++ ub ≠ "" ∧ "   " ++ uc ≠ "" := by
  have hlinks : formatLinks 0 [a, b, c] = .ok
      ["1. " ++ ta ++ "\n   " ++ ua, "2. " ++ tb ++ "\n   " ++ ub,
       "3. " ++ tc ++ "\n   " ++ uc] := by
    simp [formatLinks, hta, hua, htb, hub, htc, huc, dictGet]
    exact ⟨rfl, rfl, rfl⟩
  have hrb : runBody tavilyKey search q =
      .ok (af.getD "I found these resources:" ++ "\n\nTop Links:\n" ++
        String.intercalate "\n\n"
          ["1. " ++ ta ++ "\n   " ++ ua, "2. " ++ tb ++ "\n   " ++ ub,
           "3. " ++ tc ++ "\n   " ++ uc]) := by
    simp [runBody, hk, hs, dictGet, hlinks]
  refine ⟨?_, append_ne_empty_of_left _ _ (by decide),
    append_ne_empty_of_left _ _ (by decide), append_ne_empty_of_left _ _ (by decide),
    append_ne_empty_of_left _ _ (by decide), append_ne_empty_of_left _ _ (by decide),
    append_ne_empty_of_left _ _ (by decide)⟩
  unfold SearchTool.run
  rw [hrb, intercalate_three]
  simp [String.append_assoc]

/-- Witness for C6 at a concrete three-item search response. -/
theorem search_formats_three_entries_witness :
    SearchTool.run (some "k")
      (fun _ => .ok ⟨some [⟨some "T1", some "U1"⟩, ⟨some "T2", some "U2"⟩,
        ⟨some "T3", some "U3"⟩], some "Ans"⟩) "q" =
      (some "Ans").getD "I found these resources:" ++ "\n\nTop Links:\n" ++
        ("1. " ++ "T1" ++ "\n   " ++ "U1") ++ "\n\n" ++
        ("2. " ++ "T2" ++ "\n   " ++ "U2") ++ "\n\n" ++
        ("3. " ++ "T3" ++ "\n   " ++ "U3") ∧
    "1. " ++ "T1" ≠ "" ∧ "2. " ++ "T2" ≠ "" ∧ "3. " ++ "T3" ≠ "" ∧
    "   " ++ "U1" ≠ "" ∧ "   " ++ "U2" ≠ "" ∧ "   " ++ "U3" ≠ "" :=
  search_formats_three_entries (some "k")
    (fun _ => .ok ⟨some [⟨some "T1", some "U1"⟩, ⟨some "T2", some "U2"⟩,
      ⟨some "T3", some "U3"⟩], some "Ans"⟩) "q" (some "Ans")
    ⟨some "T1", some "U1"⟩ ⟨some "T2", some "U2"⟩ ⟨some "T3", some "U3"⟩ []
    "T1" "U1" "T2" "U2" "T3" "U3" rfl rfl rfl rfl rfl rfl rfl rfl

/-- Claim C7: on every successful search, the formatted link block is preceded
by the API's synthesized answer text, and by the exact fallback phrase
"I found these resources:" whenever the response carried no answer. -/
theorem search_prepends_answer_or_fallback (tavilyKey : Option String)
    (search : String → Except String SearchResp) (q : String)
    (items : List ResultItem) (af : Option String) (links : List String)
    (hk : pyStrTruthy tavilyKey = true)
    (hs : search q = .ok ⟨some items, af⟩)
    (hl : formatLinks 0 (items.take 3) = .ok links) :
    SearchTool.run tavilyKey search q =
      af.getD "I found these resources:" ++ "\n\nTop Links:\n" ++
        String.intercalate "\n\n" links ∧
    (af = none →
      SearchTool.run tavilyKey search q =
        "I found these resources:" ++ "\n\nTop Links:\n" ++
          String.intercalate "\n\n" links) := by
  have hrb : runBody tavilyKey search q =
      .ok (af.getD "I found these resources:" ++ "\n\nTop Links:\n" ++
        String.intercalate "\n\n" links) := by
    simp [runBody, hk, hs, dictGet, hl]
  constructor
  · unfold SearchTool.run
    rw [hrb]
  · intro ha
    subst ha
    unfold SearchTool.run
    rw [hrb]
    rfl

/-- Witness for C7: a successful search whose response carries no answer. -/
theorem search_prepends_answer_or_fallback_witness :
    SearchTool.run (some "k") (fun _ => .ok ⟨some [], none⟩) "q" =
      (none : Option String).getD "I found these resources:" ++ "\n\nTop Links:\n" ++
        String.intercalate "\n\n" [] ∧
    ((none : Option String) = none →
      SearchTool.run (some "k") (fun _ => .ok ⟨some [], none⟩) "q" =
        "I found these resources:" ++ "\n\nTop Links:\n" ++
          String.intercalate "\n\n" []) :=
  search_prepends_answer_or_fallback (some "k") (fun _ => .ok ⟨some [], none⟩) "q"
    [] none [] rfl rfl rfl

/-- Claim C8: every input whose stripped, lowercased form is "exit" or "quit"
makes the interactive loop break without printing anything and without
invoking the orchestrator. -/
theorem exit_keywords_terminate (key : Option String) (kick : Except PyExn String)
    (s : String) (h : pyLower (pyStrip s) ∈ exitKeywords) :
    loopIter key (.ok s) kick =
      { printed := [], invokedOrchestrator := false, control := .brk } := by
  simp only [loopIter]
  rw [if_pos h]

/-- Witness for C8 at the input "  Quit  ". -/
theorem exit_keywords_terminate_witness :
    loopIter (some "g") (.ok "  Quit  ") (.ok "res") =
      { printed := [], invokedOrchestrator := false, control := .brk } :=
  exit_keywords_terminate (some "g") (.ok "res") "  Quit  " (by decide)

/-- Counterexample to claim C9 as stated: a `KeyboardInterrupt` raised during
the in-flight orchestration call (`crew.kickoff()`) is caught by the same
per-iteration handler, which prints the farewell and breaks — it is not the
case that the handler catches interrupts only between prompts. -/
theorem interrupt_during_kickoff_is_caught :
    loopIter (some "g") (.ok "q") (.error .keyboardInterrupt) =
      { printed := ["\n🧠 Researching... please wait...\n", "\n👋 Exiting..."],
        invokedOrchestrator := true, control := .brk } := rfl

/-- Claim C9 (amended): the Interactive Runner catches `KeyboardInterrupt`
wherever it is raised inside the per-iteration `try` body — at the input
prompt or during the in-flight orchestration call — and in either case prints
the farewell message and terminates the loop. -/
theorem interrupt_caught_anywhere_in_iteration (key : Option String) (q : String)
    (kick : Except PyExn String) (cw : CrewConfig)
    (hq : pyLower (pyStrip q) ∉ exitKeywords)
    (hf : form_crew key q = .ok cw) :
    loopIter key (.error .keyboardInterrupt) kick =
      { printed := ["\n👋 Exiting..."], invokedOrchestrator := false, control := .brk } ∧
    loopIter key (.ok q) (.error .keyboardInterrupt) =
      { printed := ["\n🧠 Researching... please wait...\n", "\n👋 Exiting..."],
        invokedOrchestrator := true, control := .brk } := by
  constructor
  · rfl
  · simp only [loopIter]
    rw [if_neg hq, hf]
    rfl

/-- Witness for C9's amended theorem at concrete inputs. -/
theorem interrupt_caught_anywhere_in_iteration_witness :
    loopIter (some "g") (.error .keyboardInterrupt) (.ok "r") =
      { printed := ["\n👋 Exiting..."], invokedOrchestrator := false, control := .brk } ∧
    loopIter (some "g") (.ok "q") (.error .keyboardInterrupt) =
      { printed := ["\n🧠 Researching... please wait...\n", "\n👋 Exiting..."],
        invokedOrchestrator := true, control := .brk } :=
  interrupt_caught_anywhere_in_iteration (some "g") "q" (.ok "r") _ (by decide) rfl

/-- Claim C10: when both credentials are missing, the startup guard prints
exactly one error message — the `GROQ_API_KEY` one — and the `TAVILY_API_KEY`
message is never printed, because the `if`/`elif` branches are mutually
exclusive and the Groq check comes first. -/
theorem both_missing_prints_only_groq_error (g t : Option String)
    (hg : pyStrTruthy g = false) (_ht : pyStrTruthy t = false) :
    (startup g t).printed = ["❌ Error: GROQ_API_KEY not found in .env file"] ∧
    "❌ Error: TAVILY_API_KEY not found in .env file" ∉ (startup g t).printed ∧
    (startup g t).entersLoop = false := by
  unfold startup
  rw [hg]
  refine ⟨rfl, ?_, rfl⟩
  show "❌ Error: TAVILY_API_KEY not found in .env file" ∉
    ["❌ Error: GROQ_API_KEY not found in .env file"]
  decide

/-- Witness for C10: both environment variables absent. -/
theorem both_missing_prints_only_groq_error_witness :
    (startup none none).printed = ["❌ Error: GROQ_API_KEY not found in .env file"] ∧
    "❌ Error: TAVILY_API_KEY not found in .env file" ∉ (startup none none).printed ∧
    (startup none none).entersLoop = false :=
  both_missing_prints_only_groq_error none none rfl rfl

end Crawlr
